import Mathlib

/-!
Shallow embedding of `console-subscriber/examples/dump.rs`.

The program parses at most one positional argument as the target address
(falling back to a fixed default and printing a notice), connects a
`TasksClient`, issues a single `watch_tasks` streaming request, and drains
the resulting stream: each successfully received update is printed to
stderr with a sequence index that increments per success, the first stream
error aborts the loop and is returned to the caller, and natural stream
end prints a termination notice and returns `Ok(())`.

The remote's behaviour is modelled as a record of the results the program
observes: the outcome of `connect`, the outcome of `watch_tasks`, and the
finite list of `Result<Update, Status>` items the stream yields before its
natural end.  `runMain` is the embedding of `main`; it records the lines
printed to stderr and stdout, the sink invocations (index, update), which
operations were reached, the items actually pulled from the stream, the
final watcher state, and the process-visible result.
-/

namespace Dump

/-- The fixed default target address from `dump.rs`. -/
def defaultTarget : String := "http://127.0.0.1:6669"

/-- States of the watcher lifecycle from the specification's state
machine; `runMain` reports the terminal one. -/
inductive WatcherState where
  | idle
  | connecting
  | connected
  | subscribing
  | streaming
  | completed
  | failed
deriving DecidableEq

/-- The three error kinds of the lifecycle: connection establishment,
subscription request, and mid-stream failure. -/
inductive ErrorKind where
  | connectionError
  | requestError
  | streamError
deriving DecidableEq

/-- One line of program output.  Each constructor corresponds to one
`eprintln!` in `dump.rs`; `runtimeErrorReport` is the line the runtime
prints when `main` returns `Err`. -/
inductive OutLine (U : Type) where
  | usingDefault
  | connecting (target : String)
  | update (i : Nat) (u : U)
  | streamErrMsg (e : String)
  | terminated
  | runtimeErrorReport (e : String)
deriving DecidableEq

/-- The observable behaviour of the remote for one run: the result of
`TasksClient::connect`, the result of `client.watch_tasks`, and the finite
sequence of stream items before natural end. -/
structure Remote (U : Type) where
  connectResult : Except String Unit
  watchResult : Except String Unit
  items : List (Except String U)

/-- Everything observable about one run of `main`. -/
structure RunResult (U : Type) where
  stderr : List (OutLine U)
  stdout : List (OutLine U)
  sinkCalls : List (Nat × U)
  watchInvoked : Bool
  drainInvoked : Bool
  itemsRead : List (Except String U)
  finalState : WatcherState
  exit : Except (ErrorKind × String) Unit

/-- Embedding of the argument handling: `args.next()` drops the binary
name, the following `args.next()` is the target if present, otherwise the
default is used (`Bool` records whether the default-notice line prints). -/
def parseTarget : List String → String × Bool
  | _bin :: t :: _ => (t, false)
  | _ => (defaultTarget, true)

/-- Embedding of the `while let Some(update) = stream.next().await` loop:
from counter `i`, returns the (index, update) sink invocations and the
first stream error, if any. -/
def drainAux {U : Type} (i : Nat) : List (Except String U) → List (Nat × U) × Option String
  | [] => ([], none)
  | Except.ok u :: rest =>
      let r := drainAux (i + 1) rest
      ((i, u) :: r.1, r.2)
  | Except.error e :: _ => ([], some e)

/-- The prefix of the stream the loop actually pulls: every item up to and
including the first error, or all items when no error occurs. -/
def drainRead {U : Type} : List (Except String U) → List (Except String U)
  | [] => []
  | Except.ok u :: rest => Except.ok u :: drainRead rest
  | Except.error e :: _ => [Except.error e]

/-- The successful items before the first error (or before natural end). -/
def successfulPrefix {U : Type} : List (Except String U) → List U
  | [] => []
  | Except.ok u :: rest => u :: successfulPrefix rest
  | Except.error _ :: _ => []

/-- Whether a stream item is a successfully received update. -/
def isOkItem {U : Type} : Except String U → Bool
  | Except.ok _ => true
  | Except.error _ => false

/-- Whether an output line is the mid-stream error message. -/
def isStreamErrLine {U : Type} : OutLine U → Bool
  | OutLine.streamErrMsg _ => true
  | _ => false

/-- Embedding of `main` from `dump.rs`, run against a given argument
vector (binary name included) and remote behaviour. -/
def runMain {U : Type} (argv : List String) (remote : Remote U) : RunResult U :=
  let p := parseTarget argv
  let preLines : List (OutLine U) :=
    (if p.2 then [OutLine.usingDefault] else []) ++ [OutLine.connecting p.1]
  match remote.connectResult with
  | Except.error e =>
      { stderr := preLines ++ [OutLine.runtimeErrorReport e]
        stdout := []
        sinkCalls := []
        watchInvoked := false
        drainInvoked := false
        itemsRead := []
        finalState := WatcherState.failed
        exit := Except.error (ErrorKind.connectionError, e) }
  | Except.ok _ =>
      match remote.watchResult with
      | Except.error e =>
          { stderr := preLines ++ [OutLine.runtimeErrorReport e]
            stdout := []
            sinkCalls := []
            watchInvoked := true
            drainInvoked := false
            itemsRead := []
            finalState := WatcherState.failed
            exit := Except.error (ErrorKind.requestError, e) }
      | Except.ok _ =>
          let d := drainAux 0 remote.items
          let updateLines : List (OutLine U) :=
            d.1.map fun c => OutLine.update c.1 c.2
          match d.2 with
          | some e =>
              { stderr := preLines ++ updateLines ++
                  [OutLine.streamErrMsg e, OutLine.runtimeErrorReport e]
                stdout := []
                sinkCalls := d.1
                watchInvoked := true
                drainInvoked := true
                itemsRead := drainRead remote.items
                finalState := WatcherState.failed
                exit := Except.error (ErrorKind.streamError, e) }
          | none =>
              { stderr := preLines ++ updateLines ++ [OutLine.terminated]
                stdout := []
                sinkCalls := d.1
                watchInvoked := true
                drainInvoked := true
                itemsRead := drainRead remote.items
                finalState := WatcherState.completed
                exit := Except.ok () }

theorem successfulPrefix_map_ok {U : Type} (l : List U) :
    successfulPrefix (l.map Except.ok) = l := by
  induction l with
  | nil => rfl
  | cons u rest ih => simp [successfulPrefix, ih]

theorem successfulPrefix_append_error {U : Type} (pre : List U) (e : String)
    (rest : List (Except String U)) :
    successfulPrefix (pre.map Except.ok ++ Except.error e :: rest) = pre := by
  induction pre with
  | nil => rfl
  | cons u t ih => simp [successfulPrefix, ih]

theorem drainAux_map_snd {U : Type} (i : Nat) (l : List (Except String U)) :
    (drainAux i l).1.map Prod.snd = successfulPrefix l := by
  induction l generalizing i with
  | nil => rfl
  | cons x rest ih =>
    cases x with
    | ok u => simp [drainAux, successfulPrefix, ih]
    | error e => rfl

theorem drainAux_map_fst {U : Type} (i : Nat) (l : List (Except String U)) :
    (drainAux i l).1.map Prod.fst = List.range' i (successfulPrefix l).length := by
  induction l generalizing i with
  | nil => rfl
  | cons x rest ih =>
    cases x with
    | ok u => simp [drainAux, successfulPrefix, ih, List.range'_succ]
    | error e => rfl

theorem drainAux_length {U : Type} (i : Nat) (l : List (Except String U)) :
    (drainAux i l).1.length = (successfulPrefix l).length := by
  have h := drainAux_map_snd i l
  calc (drainAux i l).1.length = ((drainAux i l).1.map Prod.snd).length := by
        rw [List.length_map]
    _ = (successfulPrefix l).length := by rw [h]

theorem drainAux_snd_map_ok {U : Type} (i : Nat) (l : List U) :
    (drainAux i (l.map Except.ok)).2 = none := by
  induction l generalizing i with
  | nil => rfl
  | cons u rest ih => simp [drainAux, ih]

theorem drainAux_snd_append_error {U : Type} (i : Nat) (pre : List U) (e : String)
    (rest : List (Except String U)) :
    (drainAux i (pre.map Except.ok ++ Except.error e :: rest)).2 = some e := by
  induction pre generalizing i with
  | nil => rfl
  | cons u t ih => simp [drainAux, ih]

theorem drainAux_snd_none_iff {U : Type} (i : Nat) (l : List (Except String U)) :
    (drainAux i l).2 = none ↔ l.all isOkItem = true := by
  induction l generalizing i with
  | nil => simp [drainAux]
  | cons x rest ih =>
    cases x with
    | ok u => simp [drainAux, isOkItem, ih]
    | error e => simp [drainAux, isOkItem]

theorem drainRead_map_ok {U : Type} (l : List U) :
    drainRead (l.map Except.ok) = l.map Except.ok := by
  induction l with
  | nil => rfl
  | cons u rest ih => simp [drainRead, ih]

theorem drainRead_append_error {U : Type} (pre : List U) (e : String)
    (rest : List (Except String U)) :
    drainRead (pre.map Except.ok ++ Except.error e :: rest) =
      pre.map Except.ok ++ [Except.error e] := by
  induction pre with
  | nil => rfl
  | cons u t ih => simp [drainRead, ih]

theorem takeWhile_ok_eq {U : Type} (l : List (Except String U)) :
    l.takeWhile isOkItem = (successfulPrefix l).map Except.ok := by
  induction l with
  | nil => rfl
  | cons x rest ih =>
    cases x with
    | ok u => simp [List.takeWhile, isOkItem, successfulPrefix, ih]
    | error e => simp [List.takeWhile, isOkItem, successfulPrefix]

theorem filter_streamErr_updates {U : Type} (xs : List (Nat × U)) :
    (xs.map fun c => OutLine.update c.1 c.2).filter isStreamErrLine = [] := by
  induction xs with
  | nil => rfl
  | cons x t ih => simp [isStreamErrLine, ih]

theorem usingDefault_not_mem_updates {U : Type} (xs : List (Nat × U)) :
    OutLine.usingDefault ∉ xs.map fun c => OutLine.update c.1 c.2 := by
  simp [List.mem_map]

/-- Claim C1: for every finite input sequence of N successfully received
updates followed by a natural stream end, drain invokes the sink exactly
N times, the indices passed to the sink are exactly 0..N-1 in strictly
increasing order starting at 0, each index is assigned to the
corresponding successful update (never to an error item), and the run
returns normally with the watcher in `Completed`. -/
theorem dump_C1 {U : Type} (argv : List String) (l : List U) :
    (runMain argv (Remote.mk (Except.ok ()) (Except.ok ())
        (l.map Except.ok))).sinkCalls.length = l.length ∧
    (runMain argv (Remote.mk (Except.ok ()) (Except.ok ())
        (l.map Except.ok))).sinkCalls.map Prod.fst = List.range l.length ∧
    (runMain argv (Remote.mk (Except.ok ()) (Except.ok ())
        (l.map Except.ok))).sinkCalls.map Prod.snd = l ∧
    (runMain argv (Remote.mk (Except.ok ()) (Except.ok ())
        (l.map Except.ok))).exit = Except.ok () ∧
    (runMain argv (Remote.mk (Except.ok ()) (Except.ok ())
        (l.map Except.ok))).finalState = WatcherState.completed := by
  have hnone := drainAux_snd_map_ok (U := U) 0 l
  have hlen := drainAux_length (U := U) 0 (l.map Except.ok)
  have hsnd := drainAux_map_snd (U := U) 0 (l.map Except.ok)
  have hfst := drainAux_map_fst (U := U) 0 (l.map Except.ok)
  rw [successfulPrefix_map_ok] at hsnd hfst hlen
  refine ⟨?_, ?_, ?_, ?_, ?_⟩ <;>
    simp [runMain, hnone, hlen, hsnd, hfst, List.range_eq_range']

/-- Claim C2: for every input sequence whose item at position K
(0-indexed) is the first error, drain invokes the sink exactly K times
(for the successful items 0..K-1 with indices 0..K-1), the stream error
is surfaced to the caller exactly once (as the run's result, with exactly
one stream-error line printed), no item after position K is read, and the
watcher ends in `Failed`. -/
theorem dump_C2 {U : Type} (argv : List String) (pre : List U) (e : String)
    (rest : List (Except String U)) :
    (runMain argv (Remote.mk (Except.ok ()) (Except.ok ())
        (pre.map Except.ok ++ Except.error e :: rest))).sinkCalls.length = pre.length ∧
    (runMain argv (Remote.mk (Except.ok ()) (Except.ok ())
        (pre.map Except.ok ++ Except.error e :: rest))).sinkCalls.map Prod.fst =
      List.range pre.length ∧
    (runMain argv (Remote.mk (Except.ok ()) (Except.ok ())
        (pre.map Except.ok ++ Except.error e :: rest))).sinkCalls.map Prod.snd = pre ∧
    (runMain argv (Remote.mk (Except.ok ()) (Except.ok ())
        (pre.map Except.ok ++ Except.error e :: rest))).exit =
      Except.error (ErrorKind.streamError, e) ∧
    (runMain argv (Remote.mk (Except.ok ()) (Except.ok ())
        (pre.map Except.ok ++ Except.error e :: rest))).stderr.filter isStreamErrLine =
      [OutLine.streamErrMsg e] ∧
    (runMain argv (Remote.mk (Except.ok ()) (Except.ok ())
        (pre.map Except.ok ++ Except.error e :: rest))).itemsRead =
      pre.map Except.ok ++ [Except.error e] ∧
    (runMain argv (Remote.mk (Except.ok ()) (Except.ok ())
        (pre.map Except.ok ++ Except.error e :: rest))).finalState =
      WatcherState.failed := by
  have hsome := drainAux_snd_append_error (U := U) 0 pre e rest
  have hlen := drainAux_length (U := U) 0 (pre.map Except.ok ++ Except.error e :: rest)
  have hsnd := drainAux_map_snd (U := U) 0 (pre.map Except.ok ++ Except.error e :: rest)
  have hfst := drainAux_map_fst (U := U) 0 (pre.map Except.ok ++ Except.error e :: rest)
  have hread := drainRead_append_error (U := U) pre e rest
  rw [successfulPrefix_append_error] at hsnd hfst hlen
  refine ⟨?_, ?_, ?_, ?_, ?_, ?_, ?_⟩ <;>
    simp [runMain, hsome, hlen, hsnd, hfst, hread, List.range_eq_range',
      filter_streamErr_updates, isStreamErrLine]

/-- Claim C3: for every run in which `connect` fails, neither `watch` nor
`drain` is invoked, the sink is never invoked, and the run terminates in
`Failed` with a connection error. -/
theorem dump_C3 {U : Type} (argv : List String) (e : String)
    (w : Except String Unit) (items : List (Except String U)) :
    (runMain argv (Remote.mk (U := U) (Except.error e) w items)).watchInvoked = false ∧
    (runMain argv (Remote.mk (U := U) (Except.error e) w items)).drainInvoked = false ∧
    (runMain argv (Remote.mk (U := U) (Except.error e) w items)).sinkCalls = [] ∧
    (runMain argv (Remote.mk (U := U) (Except.error e) w items)).finalState =
      WatcherState.failed ∧
    (runMain argv (Remote.mk (U := U) (Except.error e) w items)).exit =
      Except.error (ErrorKind.connectionError, e) :=
  ⟨rfl, rfl, rfl, rfl, rfl⟩

/-- Claim C4: for every run in which `connect` succeeds but the
subscription request fails, `drain` is never invoked, the sink is never
invoked, and the run terminates in `Failed` with a request error. -/
theorem dump_C4 {U : Type} (argv : List String) (e : String)
    (items : List (Except String U)) :
    (runMain argv (Remote.mk (U := U) (Except.ok ()) (Except.error e) items)).drainInvoked =
      false ∧
    (runMain argv (Remote.mk (U := U) (Except.ok ()) (Except.error e) items)).sinkCalls = [] ∧
    (runMain argv (Remote.mk (U := U) (Except.ok ()) (Except.error e) items)).finalState =
      WatcherState.failed ∧
    (runMain argv (Remote.mk (U := U) (Except.ok ()) (Except.error e) items)).exit =
      Except.error (ErrorKind.requestError, e) :=
  ⟨rfl, rfl, rfl, rfl⟩

theorem getLast?_cons_append_one {α : Type} (a : α) (l : List α) (b : α) :
    (a :: (l ++ [b])).getLast? = some b := by
  rw [← List.cons_append, List.getLast?_concat]

theorem getLast?_cons_append_two {α : Type} (a : α) (l : List α) (x y : α) :
    (a :: (l ++ [x, y])).getLast? = some y := by
  have h : a :: (l ++ [x, y]) = (a :: (l ++ [x])) ++ [y] := by simp
  rw [h, List.getLast?_concat]

/-- Claim C5: the run's result is success exactly when the connection and
the subscription request succeed and the stream ends naturally (all items
are successful); on success the last printed line is the plain
termination notice, and on any failure (connection, request, or stream
error) the result is the error, reported with its message as the last
printed line before the abnormal exit. -/
theorem dump_C5 {U : Type} (argv : List String) (remote : Remote U) :
    ((runMain argv remote).exit = Except.ok () ↔
      remote.connectResult = Except.ok () ∧ remote.watchResult = Except.ok () ∧
        remote.items.all isOkItem = true) ∧
    ((runMain argv remote).exit = Except.ok () →
      (runMain argv remote).stderr.getLast? = some OutLine.terminated) ∧
    (∀ k e, (runMain argv remote).exit = Except.error (k, e) →
      (runMain argv remote).stderr.getLast? = some (OutLine.runtimeErrorReport e)) := by
  obtain ⟨c, w, items⟩ := remote
  cases c with
  | error e => refine ⟨?_, ?_, ?_⟩ <;> simp [runMain]
  | ok cu =>
    cases w with
    | error e => refine ⟨?_, ?_, ?_⟩ <;> simp [runMain]
    | ok wu =>
      have hall := drainAux_snd_none_iff (U := U) 0 items
      rcases hdef : drainAux 0 items with ⟨calls, err⟩
      rw [hdef] at hall
      cases err with
      | none =>
        simp only [true_iff, iff_true] at hall
        refine ⟨?_, ?_, ?_⟩ <;>
          simp [runMain, hdef, hall, getLast?_cons_append_one]
      | some e =>
        simp only [reduceCtorEq, false_iff] at hall
        refine ⟨?_, ?_, ?_⟩ <;>
          simp [runMain, hdef, hall, getLast?_cons_append_two]

/-- Witness for C5 at a concrete run: a stream error after one update
makes the last printed line the reported error message. -/
theorem dump_C5_witness :
    (runMain ["dump"] (Remote.mk (U := Nat) (Except.ok ()) (Except.ok ())
        [Except.ok 5, Except.error "boom"])).stderr.getLast? =
      some (OutLine.runtimeErrorReport "boom") :=
  (dump_C5 ["dump"] (Remote.mk (Except.ok ()) (Except.ok ())
    [Except.ok 5, Except.error "boom"])).2.2 ErrorKind.streamError "boom" rfl

/-- Claim C6: the consumption loop is deterministic — two independent runs
of the watcher over the same recorded sequence of results deliver
identical (index, update content) pairs to the sink, in the same order,
regardless of the argument vectors of the two runs. -/
theorem dump_C6 {U : Type} (argv1 argv2 : List String)
    (items : List (Except String U)) :
    (runMain argv1 (Remote.mk (Except.ok ()) (Except.ok ()) items)).sinkCalls =
      (runMain argv2 (Remote.mk (Except.ok ()) (Except.ok ()) items)).sinkCalls := by
  rcases hdef : drainAux 0 items with ⟨calls, err⟩
  cases err <;> simp [runMain, hdef]

/-- Claim C7: for every input sequence, the updates passed to the sink are
exactly, and in the same order as, the successful items of the input up to
(not including) the first error or the natural end, paired with the
indices 0..N-1 — no reordering, transformation, filtering, or
duplication. `successfulPrefix` is shown to be exactly that prefix via
`takeWhile`. -/
theorem dump_C7 {U : Type} (argv : List String) (items : List (Except String U)) :
    (runMain argv (Remote.mk (Except.ok ()) (Except.ok ()) items)).sinkCalls.map
        Prod.snd = successfulPrefix items ∧
    (runMain argv (Remote.mk (Except.ok ()) (Except.ok ()) items)).sinkCalls.map
        Prod.fst = List.range (successfulPrefix items).length ∧
    items.takeWhile isOkItem = (successfulPrefix items).map Except.ok := by
  have hsnd := drainAux_map_snd (U := U) 0 items
  have hfst := drainAux_map_fst (U := U) 0 items
  rcases hdef : drainAux 0 items with ⟨calls, err⟩
  rw [hdef] at hsnd hfst
  cases err <;>
    refine ⟨?_, ?_, ?_⟩ <;>
    simp [runMain, hdef, hsnd, hfst, List.range_eq_range', takeWhile_ok_eq]

theorem runMain_stderr_shape {U : Type} (argv : List String) (remote : Remote U) :
    ∃ tail, (runMain argv remote).stderr =
        (if (parseTarget argv).2 then [OutLine.usingDefault] else []) ++
          OutLine.connecting (parseTarget argv).1 :: tail ∧
      OutLine.usingDefault ∉ tail := by
  obtain ⟨c, w, items⟩ := remote
  cases c with
  | error e =>
    exact ⟨[OutLine.runtimeErrorReport e], by simp [runMain], by simp⟩
  | ok cu =>
    cases w with
    | error e =>
      exact ⟨[OutLine.runtimeErrorReport e], by simp [runMain], by simp⟩
    | ok wu =>
      rcases hdef : drainAux 0 items with ⟨calls, err⟩
      cases err with
      | none =>
        refine ⟨(calls.map fun c => OutLine.update c.1 c.2) ++
          [OutLine.terminated], by simp [runMain, hdef], ?_⟩
        simp [List.mem_append, usingDefault_not_mem_updates]
      | some e =>
        refine ⟨(calls.map fun c => OutLine.update c.1 c.2) ++
          [OutLine.streamErrMsg e, OutLine.runtimeErrorReport e],
          by simp [runMain, hdef], ?_⟩
        simp [List.mem_append, usingDefault_not_mem_updates]

/-- Claim C8: with no positional argument the program uses the fixed
default target `http://127.0.0.1:6669`, prints the default-notice line
followed by the connecting line; with one positional argument that
argument is the target, the first printed line is the connecting line,
and no default-notice line is ever printed; and in every run some line
reports the address being connected to. -/
theorem dump_C8 {U : Type} (bin t : String) (remote : Remote U) :
    defaultTarget = "http://127.0.0.1:6669" ∧
    parseTarget [bin] = (defaultTarget, true) ∧
    (∃ rest, (runMain [bin] remote).stderr =
      OutLine.usingDefault :: OutLine.connecting defaultTarget :: rest) ∧
    parseTarget [bin, t] = (t, false) ∧
    (∃ rest, (runMain [bin, t] remote).stderr = OutLine.connecting t :: rest) ∧
    OutLine.usingDefault ∉ (runMain [bin, t] remote).stderr ∧
    (∀ argv : List String,
      OutLine.connecting (parseTarget argv).1 ∈ (runMain argv remote).stderr) := by
  obtain ⟨tail1, h1, hm1⟩ := runMain_stderr_shape [bin] remote
  obtain ⟨tail2, h2, hm2⟩ := runMain_stderr_shape [bin, t] remote
  refine ⟨rfl, rfl, ⟨tail1, ?_⟩, rfl, ⟨tail2, ?_⟩, ?_, ?_⟩
  · rw [h1]; rfl
  · rw [h2]; rfl
  · rw [h2]
    simp only [parseTarget, if_neg Bool.false_ne_true, List.nil_append,
      List.mem_cons]
    rintro (h | h)
    · exact OutLine.noConfusion h
    · exact hm2 h
  · intro argv
    obtain ⟨tl, hs, _⟩ := runMain_stderr_shape argv remote
    rw [hs]
    simp

/-- Claim C9: only the first positional argument after the binary name is
read; any additional arguments are silently ignored, so a run with extra
arguments is observationally identical to the run with just the first. -/
theorem dump_C9 {U : Type} (bin t : String) (rest : List String)
    (remote : Remote U) :
    runMain (bin :: t :: rest) remote = runMain [bin, t] remote := rfl

/-- Claim C10: the program writes nothing to standard output; every
modelled output line (each `eprintln!` and the runtime error report) goes
to standard error. -/
theorem dump_C10 {U : Type} (argv : List String) (remote : Remote U) :
    (runMain argv remote).stdout = [] := by
  obtain ⟨c, w, items⟩ := remote
  cases c with
  | error e => rfl
  | ok cu =>
    cases w with
    | error e => rfl
    | ok wu =>
      rcases hdef : drainAux 0 items with ⟨calls, err⟩
      cases err <;> simp [runMain, hdef]

end Dump
